import Mathlib

/-
Verification development for the Take-Off-Tracker flight scraper.

The repository has two source files, both implementing the same
outbound/return round-trip enumeration protocol over a browser page:

  * src/web-scraper/flight_scraper.py        (the dynamic engine,
    functions extract_flight_element_text, scrape_flight_info and
    scrape_round_trip_data_dynamic) — modelled in namespace FS;
  * src/web-scraper/flight_scraper_proxy.py  (the proxy engine,
    functions extract_flight_element_text, scrape_flight_info and
    scrape_round_trip_data) — modelled in namespace FSP.

The browser page is an external collaborator.  It is modelled by explicit
environment records: one DOM element is a function from CSS selector
strings to an optional inner text, and each loop iteration of an engine is
driven by an iteration-environment record saying what the page did at every
suspension point of that iteration (how many outbound elements the fresh
query returned, whether the reveal wait timed out, which elements the
return query produced, whether a click or reload raised, and so on).

Each engine is translated statement-for-statement from its Python source
into a per-iteration transition function.  In the Python code the loop body
touches the accumulator final_data only by appending at most one option,
and aborts only through break / an escaping exception, so the body is
faithfully expressed as a delta, a pure function of the iteration
environment: (option appended, ghost event trace, abort signal).  The event
trace is instrumentation (the Python print / control-flow points) used to
state temporal properties; the data component is exactly the Python
accumulator, and for the proxy engine the Python-visible return value is
reconstructed as an Except (an escaping exception loses the accumulator).
-/

namespace TakeOffTracker

/-- One flight-result DOM element, at the granularity the scrapers use it:
querySelector s = some t means the element has a descendant matching the
CSS selector string s whose inner_text is t; none means no match
(element.query_selector returned None). -/
structure FlightElement where
  querySelector : String → Option String

/-- One field of the flight record: the dictionary key, the CSS selector,
and the optional aria-label hint, exactly as passed by scrape_flight_info
in both source files. -/
structure FieldSpec where
  key : String
  selector : String
  ariaLabel : Option String
deriving DecidableEq

/-- The eight field specifications of scrape_flight_info, in source order
(flight_scraper.py lines 72-79 and flight_scraper_proxy.py lines 136-143,
which agree verbatim). -/
def fieldSpecs : List FieldSpec :=
  [⟨"Departure Time", "span", some "Departure time"⟩,
   ⟨"Arrival Time", "span", some "Arrival time"⟩,
   ⟨"Airline Company", ".sSHqwe", none⟩,
   ⟨"Flight Duration", "div.gvkrdb", none⟩,
   ⟨"Stops", "div.EfT7Ae span.ogfYpf", none⟩,
   ⟨"Price", "div.FpEdX span", none⟩,
   ⟨"co2 emissions", "div.O7CXue", none⟩,
   ⟨"emissions variation", "div.N6PNV", none⟩]

/-- The flight-info dictionary scrape_flight_info returns: key/value pairs
in insertion order, as in the Python dict literal. -/
abbrev FlightInfo := List (String × String)

namespace FS

/-- Selector string built by flight_scraper.py's extract_flight_element_text
(lines 64-67): with an aria-label the query is
:scope SELECTOR[aria-label*="LABEL"], without it :scope SELECTOR. -/
def composeSelector (selector : String) (ariaLabel : Option String) : String :=
  match ariaLabel with
  | some lbl => ":scope " ++ selector ++ "[aria-label*=\"" ++ lbl ++ "\"]"
  | none => ":scope " ++ selector

/-- flight_scraper.py lines 62-68: query the sub-element; return its
inner_text when found, the sentinel "N/A" otherwise. -/
def extract_flight_element_text (flight : FlightElement) (selector : String)
    (ariaLabel : Option String) : String :=
  match flight.querySelector (composeSelector selector ariaLabel) with
  | some t => t
  | none => "N/A"

/-- flight_scraper.py lines 70-90: extract the eight fields and return the
fixed-key dictionary. -/
def scrape_flight_info (flight : FlightElement) : FlightInfo :=
  [("Departure Time", extract_flight_element_text flight "span" (some "Departure time")),
   ("Arrival Time", extract_flight_element_text flight "span" (some "Arrival time")),
   ("Airline Company", extract_flight_element_text flight ".sSHqwe" none),
   ("Flight Duration", extract_flight_element_text flight "div.gvkrdb" none),
   ("Stops", extract_flight_element_text flight "div.EfT7Ae span.ogfYpf" none),
   ("Price", extract_flight_element_text flight "div.FpEdX span" none),
   ("co2 emissions", extract_flight_element_text flight "div.O7CXue" none),
   ("emissions variation", extract_flight_element_text flight "div.N6PNV" none)]

end FS

namespace FSP

/-- Selector string built by flight_scraper_proxy.py's
extract_flight_element_text (lines 128-131): same as the dynamic variant
but without the :scope qualifier. -/
def composeSelector (selector : String) (ariaLabel : Option String) : String :=
  match ariaLabel with
  | some lbl => selector ++ "[aria-label*=\"" ++ lbl ++ "\"]"
  | none => selector

/-- flight_scraper_proxy.py lines 126-132. -/
def extract_flight_element_text (flight : FlightElement) (selector : String)
    (ariaLabel : Option String) : String :=
  match flight.querySelector (composeSelector selector ariaLabel) with
  | some t => t
  | none => "N/A"

/-- flight_scraper_proxy.py lines 134-153: identical field list and keys to
the dynamic variant. -/
def scrape_flight_info (flight : FlightElement) : FlightInfo :=
  [("Departure Time", extract_flight_element_text flight "span" (some "Departure time")),
   ("Arrival Time", extract_flight_element_text flight "span" (some "Arrival time")),
   ("Airline Company", extract_flight_element_text flight ".sSHqwe" none),
   ("Flight Duration", extract_flight_element_text flight "div.gvkrdb" none),
   ("Stops", extract_flight_element_text flight "div.EfT7Ae span.ogfYpf" none),
   ("Price", extract_flight_element_text flight "div.FpEdX span" none),
   ("co2 emissions", extract_flight_element_text flight "div.O7CXue" none),
   ("emissions variation", extract_flight_element_text flight "div.N6PNV" none)]

end FSP

/-- One round-trip option, the dictionary appended to final_data in both
engines: the outbound record and the list of return records. -/
structure RoundTripOption where
  OutboundFlight : FlightInfo
  ReturnFlights : List FlightInfo
deriving DecidableEq

/-- Ghost trace events marking the control-flow points of one engine run;
the index argument is the outbound index being processed. -/
inductive Event where
  /-- the initial wait for outbound flights raised (dynamic engine outer
  handler). -/
  | initialWaitFailed : Event
  /-- the every-5-iterations page refresh succeeded (flight_scraper.py
  lines 298-302). -/
  | periodicRefresh (i : Nat) : Event
  /-- the fresh outbound query no longer covers index i, so the index is
  skipped with a message. -/
  | skippedMissing (i : Nat) : Event
  /-- the outbound record for index i was captured before the click. -/
  | capturedOutbound (i : Nat) : Event
  /-- the activation click on outbound i went through. -/
  | clicked (i : Nat) : Event
  /-- the wait for the return container timed out; the failure message for
  index i is printed. -/
  | revealTimeout (i : Nat) : Event
  /-- n return candidates were captured for index i. -/
  | capturedReturns (i : Nat) (n : Nat) : Event
  /-- a RoundTripOption for index i was appended to final_data. -/
  | appended (i : Nat) : Event
  /-- the return list came up empty after filtering, so index i is dropped
  (flight_scraper.py line 361). -/
  | droppedEmpty (i : Nat) : Event
  /-- the page was reset for index i by a full reload of the search URL. -/
  | resetReload (i : Nat) : Event
  /-- the fallback reset reload for index i raised a timeout, absorbed by
  the handler at flight_scraper.py line 374. -/
  | resetTimeout (i : Nat) : Event
  /-- the page was reset for index i by clicking the in-page Close control
  (proxy engine only). -/
  | resetDismiss (i : Nat) : Event
  /-- the recovery reload in the generic per-index handler succeeded. -/
  | recoveryReload (i : Nat) : Event
  /-- recovery failed during iteration i: the dynamic engine breaks out of
  the loop, the proxy engine lets the exception escape. -/
  | abortedRun (i : Nat) : Event
deriving DecidableEq

namespace FS

/-- Everything the page environment decides during one iteration of the
scrape_round_trip_data_dynamic loop (flight_scraper.py lines 293-388):
which waits, queries, clicks and reloads succeed, and what the element
queries return. -/
structure DynIterEnv where
  /-- the `i % 5 == 0` page refresh (lines 298-302) raises. -/
  refreshFails : Bool
  /-- length of the fresh page.query_selector_all(".pIav2d") at line 305. -/
  outboundCount : Nat
  /-- the element current_flights[i] at line 311. -/
  outboundElem : FlightElement
  /-- scroll_into_view_if_needed or the 500 ms wait (lines 314-315)
  raises, before the outbound record is captured. -/
  scrollFails : Bool
  /-- outbound_element.click(force=True) at line 321 raises. -/
  clickFails : Bool
  /-- the wait for the return container ".Rk10dc" (line 325) times out. -/
  revealTimesOut : Bool
  /-- elements matching ".Rk10dc .pIav2d" at line 333. -/
  containerFlights : List FlightElement
  /-- elements matching the broad ".pIav2d" fallback query at line 337;
  used only when containerFlights is empty, after dropping the first
  initial_outbound_count entries (line 339). -/
  allFlights : List FlightElement
  /-- the first reset goto/wait (lines 365-367) raises. -/
  resetFirstFails : Bool
  /-- the fallback reset (lines 370-372) raises a Playwright timeout,
  which the handler at line 374 absorbs. -/
  resetSecondTimesOut : Bool
  /-- the fallback reset raises a non-timeout error, which escalates to
  the generic per-index handler at line 378. -/
  resetSecondErrors : Bool
  /-- the recovery reload in the generic handler (lines 381-384) raises,
  so the loop breaks at line 387. -/
  recoveryFails : Bool

/-- The page environment for one whole run of the dynamic engine. -/
structure DynEnv where
  /-- the initial wait (line 281) or any pre-loop step raises, so the
  outer handler at line 393 returns the still-empty final_data. -/
  initialWaitFails : Bool
  /-- length of the initial outbound query (line 285). -/
  initialOutboundCount : Nat
  /-- the environment of each loop iteration. -/
  iter : Nat → DynIterEnv

/-- The accumulator of the dynamic engine: final_data, the ghost event
trace, and whether the loop has been broken out of. -/
structure RunState where
  data : List RoundTripOption
  events : List Event
  aborted : Bool
deriving DecidableEq

/-- The return records captured and kept for one iteration
(flight_scraper.py lines 331-348): container-scoped elements, with the
broad-query fallback dropping the first initial_outbound_count matches,
each scraped and kept only when not field-for-field equal to the outbound
record. -/
def dynReturnInfos (N : Nat) (e : DynIterEnv) : List FlightInfo :=
  let outboundInfo := scrape_flight_info e.outboundElem
  let elems := if e.containerFlights.isEmpty then e.allFlights.drop N
               else e.containerFlights
  (elems.map scrape_flight_info).filter (fun r => r ≠ outboundInfo)

/-- Outcome of the generic per-index exception handler (flight_scraper.py
lines 378-388): reload and continue, or break when the reload fails too. -/
def recoverDelta (e : DynIterEnv) (i : Nat) : List Event × Bool :=
  if e.recoveryFails then ([Event.abortedRun i], true)
  else ([Event.recoveryReload i], false)

/-- The body of one iteration of the scrape_round_trip_data_dynamic loop
(flight_scraper.py lines 293-388) as a pure delta: the option appended to
final_data (at most one), the events emitted, and whether the loop breaks.
The body never reads final_data, so this is exactly the per-iteration
behaviour.  Scraping an already-held element is total in this model (an
absent field reads as the sentinel), so the per-return-element handler at
lines 349-351 has nothing to catch. -/
def dynIterDelta (N : Nat) (i : Nat) (e : DynIterEnv) :
    Option RoundTripOption × List Event × Bool :=
  if 0 < i ∧ i % 5 = 0 ∧ e.refreshFails then
    (none, (recoverDelta e i).1, (recoverDelta e i).2)
  else
  let pre : List Event :=
    if 0 < i ∧ i % 5 = 0 then [Event.periodicRefresh i] else []
  if e.outboundCount ≤ i then
    (none, pre ++ [Event.skippedMissing i], false)
  else if e.scrollFails then
    (none, pre ++ (recoverDelta e i).1, (recoverDelta e i).2)
  else
  let outboundInfo := scrape_flight_info e.outboundElem
  let evs := pre ++ [Event.capturedOutbound i]
  if e.clickFails then
    (none, evs ++ (recoverDelta e i).1, (recoverDelta e i).2)
  else
  let evs := evs ++ [Event.clicked i]
  if e.revealTimesOut then
    (none, evs ++ [Event.revealTimeout i], false)
  else
  let rets := dynReturnInfos N e
  let evs := evs ++ [Event.capturedReturns i rets.length]
  let stored : Option RoundTripOption × List Event :=
    if rets.isEmpty then (none, evs ++ [Event.droppedEmpty i])
    else (some ⟨outboundInfo, rets⟩, evs ++ [Event.appended i])
  let resetPart : List Event × Bool :=
    if ¬ e.resetFirstFails then ([Event.resetReload i], false)
    else if e.resetSecondTimesOut then ([Event.resetTimeout i], false)
    else if e.resetSecondErrors then recoverDelta e i
    else ([Event.resetReload i], false)
  (stored.1, stored.2 ++ resetPart.1, resetPart.2)

/-- One iteration applied to the accumulator; a broken loop leaves the
state unchanged. -/
def dynStep (env : DynEnv) (N : Nat) (i : Nat) (st : RunState) : RunState :=
  if st.aborted then st
  else
    let d := dynIterDelta N i (env.iter i)
    { data := st.data ++ d.1.toList,
      events := st.events ++ d.2.1,
      aborted := d.2.2 }

/-- The for-loop of scrape_round_trip_data_dynamic over the given index
list. -/
def dynLoop (env : DynEnv) (N : Nat) : List Nat → RunState → RunState
  | [], st => st
  | i :: rest, st => dynLoop env N rest (dynStep env N i st)

/-- flight_scraper.py lines 268-395: wait for the outbound list, cap the
index range to the first 15 candidates (line 286), run the loop, and on
any path return the accumulated final_data. -/
def scrape_round_trip_data_dynamic (env : DynEnv) : RunState :=
  if env.initialWaitFails then
    { data := [], events := [Event.initialWaitFailed], aborted := true }
  else
    dynLoop env (min env.initialOutboundCount 15)
      (List.range (min env.initialOutboundCount 15))
      { data := [], events := [], aborted := false }

end FS

namespace FSP

/-- Exceptions that can escape scrape_round_trip_data in
flight_scraper_proxy.py (it has no outer try/except, only a finally that
closes the browser, so these reach the caller and lose final_data). -/
inductive PyErr where
  | gotoFailed : PyErr
  | initialWaitTimeout : PyErr
  | clickRaised (i : Nat) : PyErr
  | resetReloadRaised (i : Nat) : PyErr
deriving DecidableEq

/-- Everything the page decides during one iteration of the
scrape_round_trip_data loop (flight_scraper_proxy.py lines 213-280). -/
structure ProxyIterEnv where
  /-- length of the fresh outbound query at line 215. -/
  outboundCount : Nat
  /-- the element outbound_flights_list[i] at line 222. -/
  outboundElem : FlightElement
  /-- outbound_element.click() at line 229 raises (uncaught). -/
  clickFails : Bool
  /-- the wait for the return container ".F0c0s" (line 237) times out. -/
  revealTimesOut : Bool
  /-- elements matching ".F0c0s .pIav2d" at line 252. -/
  returnFlights : List FlightElement
  /-- in the timeout handler (lines 242-247), the Close button query
  finds a control. -/
  timeoutCloseVisible : Bool
  /-- clicking that control raises; absorbed by the bare handler at
  line 246. -/
  timeoutCloseClickFails : Bool
  /-- in the reset step F (line 269), the Close button query finds a
  control. -/
  resetCloseVisible : Bool
  /-- the dismiss fails: the Close click raises or the wait for the
  container to hide (line 272) times out, reaching the handler at
  line 277 which reloads. -/
  resetCloseFails : Bool
  /-- the reload in the no-Close-button branch (lines 275-276) raises,
  reaching the handler at line 277 which reloads again. -/
  resetElseReloadFails : Bool
  /-- the reload inside the handler at lines 279-280 raises; nothing
  catches it, so it escapes the function. -/
  resetExceptReloadFails : Bool

/-- The page environment for one whole run of the proxy engine. -/
structure ProxyEnv where
  /-- page.goto at line 200 raises. -/
  gotoFails : Bool
  /-- the initial outbound wait at line 204 times out. -/
  initialWaitTimesOut : Bool
  /-- length of the initial outbound query at line 208, which fixes the
  loop range (line 213). -/
  initialOutboundCount : Nat
  /-- the environment of each loop iteration. -/
  iter : Nat → ProxyIterEnv

/-- Accumulator of the proxy engine: final_data, ghost events, and the
escaped exception, if any. -/
structure PRunState where
  data : List RoundTripOption
  events : List Event
  error : Option PyErr
deriving DecidableEq

/-- The body of one iteration of the scrape_round_trip_data loop
(flight_scraper_proxy.py lines 213-280) as a pure delta: the appended
option, the emitted events, and the exception that escapes, if any.
Unlike the dynamic engine, the append at lines 260-263 is unconditional
(empty return lists included) and the returns are not compared against the
outbound record. -/
def proxyIterDelta (i : Nat) (e : ProxyIterEnv) :
    Option RoundTripOption × List Event × Option PyErr :=
  if e.outboundCount ≤ i then
    (none, [Event.skippedMissing i], none)
  else
  let outboundInfo := scrape_flight_info e.outboundElem
  let evs := [Event.capturedOutbound i]
  if e.clickFails then
    (none, evs, some (PyErr.clickRaised i))
  else
  let evs := evs ++ [Event.clicked i]
  if e.revealTimesOut then
    let evs := evs ++ [Event.revealTimeout i]
    if e.timeoutCloseVisible ∧ ¬ e.timeoutCloseClickFails then
      (none, evs ++ [Event.resetDismiss i], none)
    else
      (none, evs, none)
  else
  let rets := e.returnFlights.map scrape_flight_info
  let evs := evs ++ [Event.capturedReturns i rets.length, Event.appended i]
  let resetPart : List Event × Option PyErr :=
    if e.resetCloseVisible then
      if ¬ e.resetCloseFails then ([Event.resetDismiss i], none)
      else if ¬ e.resetExceptReloadFails then ([Event.resetReload i], none)
      else ([Event.abortedRun i], some (PyErr.resetReloadRaised i))
    else
      if ¬ e.resetElseReloadFails then ([Event.resetReload i], none)
      else if ¬ e.resetExceptReloadFails then ([Event.resetReload i], none)
      else ([Event.abortedRun i], some (PyErr.resetReloadRaised i))
  (some ⟨outboundInfo, rets⟩, evs ++ resetPart.1, resetPart.2)

/-- One iteration applied to the accumulator; once an exception is in
flight no further iteration runs. -/
def proxyStep (env : ProxyEnv) (i : Nat) (st : PRunState) : PRunState :=
  if st.error.isSome then st
  else
    let d := proxyIterDelta i (env.iter i)
    { data := st.data ++ d.1.toList,
      events := st.events ++ d.2.1,
      error := d.2.2 }

/-- The for-loop of scrape_round_trip_data over the given index list. -/
def proxyLoop (env : ProxyEnv) : List Nat → PRunState → PRunState
  | [], st => st
  | i :: rest, st => proxyLoop env rest (proxyStep env i st)

/-- The instrumented run of flight_scraper_proxy.py lines 191-287. -/
def proxyRun (env : ProxyEnv) : PRunState :=
  if env.gotoFails then
    { data := [], events := [], error := some PyErr.gotoFailed }
  else if env.initialWaitTimesOut then
    { data := [], events := [], error := some PyErr.initialWaitTimeout }
  else
    proxyLoop env (List.range env.initialOutboundCount)
      { data := [], events := [], error := none }

/-- The Python-visible result of scrape_round_trip_data: final_data when
the loop finishes, and nothing but the exception when one escapes (the
finally at lines 285-287 closes the browser and re-raises, so the
accumulated final_data is lost). -/
def scrape_round_trip_data (env : ProxyEnv) :
    Except PyErr (List RoundTripOption) :=
  match (proxyRun env).error with
  | some err => Except.error err
  | none => Except.ok (proxyRun env).data

end FSP

/-! ### Concrete elements and environments used to evaluate the models -/

/-- A flight element none of whose sub-queries match: every field reads as
the sentinel. -/
def elemBlank : FlightElement := ⟨fun _ => none⟩

/-- A flight element every sub-query of which reads the text "ret". -/
def elemR : FlightElement := ⟨fun _ => some "ret"⟩

/-! ### Loop lemmas for the dynamic engine -/

namespace FS

theorem dynStep_of_aborted (env : DynEnv) (N i : Nat) (st : RunState)
    (h : st.aborted = true) : dynStep env N i st = st := by
  simp [dynStep, h]

theorem dynLoop_of_aborted (env : DynEnv) (N : Nat) :
    ∀ (l : List Nat) (st : RunState), st.aborted = true →
      dynLoop env N l st = st := by
  intro l
  induction l with
  | nil => intro st _; rfl
  | cons i rest ih =>
    intro st h
    simp only [dynLoop, dynStep_of_aborted env N i st h]
    exact ih st h

theorem dynLoop_append (env : DynEnv) (N : Nat) :
    ∀ (l₁ l₂ : List Nat) (st : RunState),
      dynLoop env N (l₁ ++ l₂) st = dynLoop env N l₂ (dynLoop env N l₁ st) := by
  intro l₁
  induction l₁ with
  | nil => intro l₂ st; rfl
  | cons i rest ih =>
    intro l₂ st
    simp only [List.cons_append, dynLoop]
    exact ih l₂ (dynStep env N i st)

theorem dynLoop_data_length (env : DynEnv) (N : Nat) :
    ∀ (l : List Nat) (st : RunState),
      (dynLoop env N l st).data.length ≤ st.data.length + l.length := by
  intro l
  induction l with
  | nil => intro st; simp [dynLoop]
  | cons i rest ih =>
    intro st
    refine (ih (dynStep env N i st)).trans ?_
    have hstep : (dynStep env N i st).data.length ≤ st.data.length + 1 := by
      unfold dynStep
      split
      · omega
      · simp only [List.length_append]
        have : (dynIterDelta N i (env.iter i)).1.toList.length ≤ 1 := by
          cases (dynIterDelta N i (env.iter i)).1 <;> simp
        omega
    simp only [List.length_cons]
    omega

theorem dynReturnInfos_ne_outbound (N : Nat) (e : DynIterEnv) :
    ∀ r ∈ dynReturnInfos N e, r ≠ scrape_flight_info e.outboundElem := by
  intro r hr
  unfold dynReturnInfos at hr
  simp only [List.mem_filter, decide_eq_true_eq] at hr
  exact hr.2

theorem dynIterDelta_data_eq (env : DynEnv) (N i : Nat) (opt : RoundTripOption)
    (h : (dynIterDelta N i (env.iter i)).1 = some opt) :
    opt.OutboundFlight = scrape_flight_info (env.iter i).outboundElem ∧
    opt.ReturnFlights = dynReturnInfos N (env.iter i) ∧
    opt.ReturnFlights ≠ [] := by
  simp only [dynIterDelta, recoverDelta] at h
  split_ifs at h <;> dsimp only at h <;>
    first
      | (cases h; exact ⟨rfl, rfl, by simp_all⟩)
      | simp at h

theorem dynIterDelta_capturedOutbound (env : DynEnv) (N i j : Nat)
    (h : Event.capturedOutbound j ∈ (dynIterDelta N i (env.iter i)).2.1) : j = i := by
  simp only [dynIterDelta, recoverDelta] at h
  split_ifs at h <;> simp at h <;> (try exact h)

theorem dynLoop_data_mem (env : DynEnv) (N : Nat) (P : RoundTripOption → Prop)
    (hdelta : ∀ i opt, (dynIterDelta N i (env.iter i)).1 = some opt → P opt) :
    ∀ (l : List Nat) (st : RunState), (∀ opt ∈ st.data, P opt) →
      ∀ opt ∈ (dynLoop env N l st).data, P opt := by
  intro l
  induction l with
  | nil => intro st hst; exact hst
  | cons i rest ih =>
    intro st hst
    refine ih (dynStep env N i st) ?_
    intro opt hopt
    unfold dynStep at hopt
    split at hopt
    · exact hst opt hopt
    · simp only [List.mem_append] at hopt
      rcases hopt with hopt | hopt
      · exact hst opt hopt
      · rcases hd : (dynIterDelta N i (env.iter i)).1 with _ | o
        · rw [hd] at hopt; simp at hopt
        · rw [hd] at hopt
          simp only [Option.toList_some, List.mem_singleton] at hopt
          subst hopt
          exact hdelta i opt hd

theorem dynLoop_capturedOutbound (env : DynEnv) (N : Nat) :
    ∀ (l : List Nat) (st : RunState) (j : Nat),
      Event.capturedOutbound j ∈ (dynLoop env N l st).events →
      Event.capturedOutbound j ∈ st.events ∨ j ∈ l := by
  intro l
  induction l with
  | nil => intro st j h; exact Or.inl h
  | cons i rest ih =>
    intro st j h
    rcases ih (dynStep env N i st) j h with hmem | hmem
    · unfold dynStep at hmem
      split at hmem
      · exact Or.inl hmem
      · simp only [List.mem_append] at hmem
        rcases hmem with hmem | hmem
        · exact Or.inl hmem
        · exact Or.inr (by simp [dynIterDelta_capturedOutbound env N i j hmem])
    · exact Or.inr (List.mem_cons_of_mem i hmem)

/-- The indices the loop actually executes before (and including) the
first iteration that breaks: the abort cut of an index list. -/
def dynTakeUntil (env : DynEnv) (N : Nat) : List Nat → List Nat
  | [] => []
  | i :: rest =>
    if (dynIterDelta N i (env.iter i)).2.2 then [i]
    else i :: dynTakeUntil env N rest

theorem dynLoop_data_char (env : DynEnv) (N : Nat) :
    ∀ (l : List Nat) (st : RunState), st.aborted = false →
      (dynLoop env N l st).data
        = st.data ++ (dynTakeUntil env N l).filterMap
            (fun i => (dynIterDelta N i (env.iter i)).1) := by
  intro l
  induction l with
  | nil => intro st _; simp [dynLoop, dynTakeUntil]
  | cons i rest ih =>
    intro st hst
    have hstep : dynStep env N i st
        = { data := st.data ++ (dynIterDelta N i (env.iter i)).1.toList,
            events := st.events ++ (dynIterDelta N i (env.iter i)).2.1,
            aborted := (dynIterDelta N i (env.iter i)).2.2 } := by
      unfold dynStep
      rw [if_neg (by simp [hst])]
    by_cases habort : (dynIterDelta N i (env.iter i)).2.2 = true
    · have hfix : dynLoop env N rest (dynStep env N i st)
          = dynStep env N i st :=
        dynLoop_of_aborted env N rest _ (by rw [hstep]; exact habort)
      show (dynLoop env N rest (dynStep env N i st)).data = _
      rw [hfix, hstep]
      simp only [dynTakeUntil, if_pos habort, List.filterMap_cons]
      cases hd : (dynIterDelta N i (env.iter i)).1 <;> simp [hd]
    · have hab : (dynStep env N i st).aborted = false := by
        rw [hstep]
        simpa using habort
      show (dynLoop env N rest (dynStep env N i st)).data = _
      rw [ih (dynStep env N i st) hab, hstep]
      simp only [dynTakeUntil, if_neg habort, List.filterMap_cons]
      cases hd : (dynIterDelta N i (env.iter i)).1 <;> simp [hd]

end FS

/-! ### Concrete runs used as witnesses and counterexamples -/

/-- A fully successful dynamic-engine iteration: the index is in range,
nothing raises, the reveal produces one return element distinct from the
outbound one, and the first reset reload works. -/
def iterOk : FS.DynIterEnv :=
  { refreshFails := false, outboundCount := 1, outboundElem := elemBlank,
    scrollFails := false, clickFails := false, revealTimesOut := false,
    containerFlights := [elemR], allFlights := [],
    resetFirstFails := false, resetSecondTimesOut := false,
    resetSecondErrors := false, recoveryFails := false }

/-- One outbound candidate, fully successful run of the dynamic engine. -/
def envDynOk : FS.DynEnv :=
  { initialWaitFails := false, initialOutboundCount := 1,
    iter := fun _ => iterOk }

/-- Two outbound candidates; index 0's reveal wait times out, index 1
succeeds. -/
def envDynC4 : FS.DynEnv :=
  { initialWaitFails := false, initialOutboundCount := 2,
    iter := fun i =>
      if i = 0 then { iterOk with outboundCount := 2, revealTimesOut := true }
      else { iterOk with outboundCount := 2 } }

/-- Three outbound candidates; every iteration raises at the scroll and the
recovery reload also fails, so the loop breaks during iteration 0. -/
def envDynAbort : FS.DynEnv :=
  { initialWaitFails := false, initialOutboundCount := 3,
    iter := fun _ =>
      { iterOk with
        outboundCount := 3, scrollFails := true, recoveryFails := true } }

/-- A fully successful proxy-engine iteration: one return element, Close
control present and working. -/
def proxIterOk : FSP.ProxyIterEnv :=
  { outboundCount := 1, outboundElem := elemBlank, clickFails := false,
    revealTimesOut := false, returnFlights := [elemR],
    timeoutCloseVisible := false, timeoutCloseClickFails := false,
    resetCloseVisible := true, resetCloseFails := false,
    resetElseReloadFails := false, resetExceptReloadFails := false }

/-- Proxy run where the reveal succeeds but yields zero return candidates. -/
def envProxC1 : FSP.ProxyEnv :=
  { gotoFails := false, initialWaitTimesOut := false,
    initialOutboundCount := 1,
    iter := fun _ => { proxIterOk with returnFlights := [] } }

/-- Proxy run where the single return element is the outbound element
itself, so its record is field-for-field equal to the outbound record. -/
def envProxC2 : FSP.ProxyEnv :=
  { gotoFails := false, initialWaitTimesOut := false,
    initialOutboundCount := 1,
    iter := fun _ => { proxIterOk with returnFlights := [elemBlank] } }

/-- Proxy run where index 0 succeeds and appends an option, then index 1's
activation click raises. -/
def envProxC3 : FSP.ProxyEnv :=
  { gotoFails := false, initialWaitTimesOut := false,
    initialOutboundCount := 2,
    iter := fun i =>
      if i = 0 then { proxIterOk with outboundCount := 2 }
      else { proxIterOk with outboundCount := 2, clickFails := true } }

/-- Proxy run where index 0's reveal yields zero return candidates and
index 1's yields one. -/
def envProxC8 : FSP.ProxyEnv :=
  { gotoFails := false, initialWaitTimesOut := false,
    initialOutboundCount := 2,
    iter := fun i =>
      if i = 0 then { proxIterOk with outboundCount := 2, returnFlights := [] }
      else { proxIterOk with outboundCount := 2 } }

/-- Proxy run where index 0's reveal wait times out. -/
def envProxTimeout : FSP.ProxyEnv :=
  { gotoFails := false, initialWaitTimesOut := false,
    initialOutboundCount := 1,
    iter := fun _ => { proxIterOk with revealTimesOut := true } }

/-- The round-trip option both counterexample runs on elemBlank produce
when the page re-matches the outbound element as a return result. -/
def optDup : RoundTripOption :=
  ⟨FSP.scrape_flight_info elemBlank, [FSP.scrape_flight_info elemBlank]⟩

/-! ### Claim C1 -/

/-- Claim C1, as stated over both engines, is false: in
flight_scraper_proxy.py the append at lines 259-263 is unconditional, so
an outbound index whose reveal succeeds with zero return candidates is
recorded with an empty returns list. -/
theorem claim_C1_counterexample :
    FSP.scrape_round_trip_data envProxC1
      = Except.ok [⟨FSP.scrape_flight_info elemBlank, []⟩] ∧
    (⟨FSP.scrape_flight_info elemBlank, []⟩ : RoundTripOption).ReturnFlights
      = [] := by
  exact ⟨rfl, rfl⟩

/-- Claim C1 amended: in the dynamic engine (flight_scraper.py, guard at
line 354) every RoundTripOption in the final result has a non-empty
return-flight sequence; the proxy engine records empty-return options. -/
theorem claim_C1_amended (env : FS.DynEnv) :
    ∀ opt ∈ (FS.scrape_round_trip_data_dynamic env).data,
      opt.ReturnFlights ≠ [] := by
  intro opt hopt
  unfold FS.scrape_round_trip_data_dynamic at hopt
  split at hopt
  · simp at hopt
  · exact FS.dynLoop_data_mem env _ (fun o => o.ReturnFlights ≠ [])
      (fun i o hd => (FS.dynIterDelta_data_eq env _ i o hd).2.2)
      _ _ (by simp) opt hopt

/-- Evaluation of the C1 theorem on a concrete successful run. -/
theorem claim_C1_witness :
    (⟨FS.scrape_flight_info elemBlank, [FS.scrape_flight_info elemR]⟩ :
        RoundTripOption).ReturnFlights ≠ [] :=
  claim_C1_amended envDynOk
    ⟨FS.scrape_flight_info elemBlank, [FS.scrape_flight_info elemR]⟩
    (by decide)

/-! ### Claim C2 -/

/-- Claim C2, as stated over both engines, is false: the proxy engine
appends every scraped return record (lines 255-257) with no comparison
against the outbound record, so a return record field-for-field equal to
the outbound record stays in the returns sequence. -/
theorem claim_C2_counterexample :
    FSP.scrape_round_trip_data envProxC2 = Except.ok [optDup] ∧
    optDup.OutboundFlight ∈ optDup.ReturnFlights := by
  exact ⟨rfl, by decide⟩

/-- Claim C2 amended: in the dynamic engine (the guard at line 347 of
flight_scraper.py) no return record field-for-field equal to the outbound
record of the same index survives into the returns sequence; the proxy
engine performs no such exclusion. -/
theorem claim_C2_amended (env : FS.DynEnv) :
    ∀ opt ∈ (FS.scrape_round_trip_data_dynamic env).data,
      ∀ r ∈ opt.ReturnFlights, r ≠ opt.OutboundFlight := by
  intro opt hopt
  unfold FS.scrape_round_trip_data_dynamic at hopt
  split at hopt
  · simp at hopt
  · refine FS.dynLoop_data_mem env _
      (fun o => ∀ r ∈ o.ReturnFlights, r ≠ o.OutboundFlight)
      (fun i o hd => ?_) _ _ (by simp) opt hopt
    obtain ⟨ho, hr, _⟩ := FS.dynIterDelta_data_eq env _ i o hd
    intro r hrmem
    rw [hr] at hrmem
    rw [ho]
    exact FS.dynReturnInfos_ne_outbound _ _ r hrmem

/-- Evaluation of the C2 theorem on a concrete successful run. -/
theorem claim_C2_witness :
    FS.scrape_flight_info elemR
      ≠ (⟨FS.scrape_flight_info elemBlank, [FS.scrape_flight_info elemR]⟩ :
          RoundTripOption).OutboundFlight :=
  claim_C2_amended envDynOk
    ⟨FS.scrape_flight_info elemBlank, [FS.scrape_flight_info elemR]⟩
    (by decide) (FS.scrape_flight_info elemR) (by decide)

/-! ### Claim C3 -/

/-- Claim C3, as stated over both engines, is false: the proxy engine has
no outer exception handler (only a browser-closing finally), so an
activation click that raises at index 1 escapes the function and the
option accumulated at index 0 is lost instead of returned. -/
theorem claim_C3_counterexample :
    FSP.scrape_round_trip_data envProxC3
      = Except.error (FSP.PyErr.clickRaised 1) ∧
    (FSP.proxyRun envProxC3).data
      = [⟨FSP.scrape_flight_info elemBlank, [FSP.scrape_flight_info elemR]⟩] := by
  exact ⟨rfl, rfl⟩

/-- Claim C3 amended: in the dynamic engine (break at flight_scraper.py
line 387, outer handler at 393-395 returning final_data) a run that aborts
during its first k iterations returns exactly the state accumulated by
those k iterations — the remaining enumeration contributes nothing and
nothing accumulated is lost; in the proxy engine an escaping error loses
the accumulated options. -/
theorem claim_C3_amended (env : FS.DynEnv) (k : Nat)
    (hwait : env.initialWaitFails = false)
    (hk : k ≤ min env.initialOutboundCount 15)
    (habort : (FS.dynLoop env (min env.initialOutboundCount 15)
        (List.range k)
        { data := [], events := [], aborted := false }).aborted = true) :
    FS.scrape_round_trip_data_dynamic env
      = FS.dynLoop env (min env.initialOutboundCount 15) (List.range k)
          { data := [], events := [], aborted := false } := by
  unfold FS.scrape_round_trip_data_dynamic
  rw [if_neg (by simp [hwait])]
  obtain ⟨m, hm⟩ : ∃ m, min env.initialOutboundCount 15 = k + m :=
    ⟨min env.initialOutboundCount 15 - k, (Nat.add_sub_cancel' hk).symm⟩
  rw [hm] at habort ⊢
  rw [List.range_add, FS.dynLoop_append]
  exact FS.dynLoop_of_aborted env _ _ _ habort

/-- Evaluation of the C3 theorem on a concrete aborting run: iteration 0
raises and the recovery reload fails, so the run breaks there and returns
the iteration-0 state. -/
theorem claim_C3_witness :
    envDynAbort.initialWaitFails = false ∧
    1 ≤ min envDynAbort.initialOutboundCount 15 ∧
    (FS.dynLoop envDynAbort (min envDynAbort.initialOutboundCount 15)
        (List.range 1)
        { data := [], events := [], aborted := false }).aborted = true ∧
    FS.scrape_round_trip_data_dynamic envDynAbort
      = FS.dynLoop envDynAbort (min envDynAbort.initialOutboundCount 15)
          (List.range 1) { data := [], events := [], aborted := false } :=
  ⟨rfl, by decide, by decide,
    claim_C3_amended envDynAbort 1 rfl (by decide) (by decide)⟩

/-! ### Claim C4 -/

/-- Claim C4 is false on the dynamic engine: when index 0's reveal wait
times out, the handler at flight_scraper.py lines 374-376 just continues,
so the engine advances to index 1 (whose outbound record is captured) with
no reset of any kind recorded for index 0. -/
theorem claim_C4_counterexample :
    Event.revealTimeout 0
        ∈ (FS.scrape_round_trip_data_dynamic envDynC4).events ∧
    Event.capturedOutbound 1
        ∈ (FS.scrape_round_trip_data_dynamic envDynC4).events ∧
    Event.resetReload 0
        ∉ (FS.scrape_round_trip_data_dynamic envDynC4).events ∧
    Event.resetDismiss 0
        ∉ (FS.scrape_round_trip_data_dynamic envDynC4).events ∧
    Event.resetTimeout 0
        ∉ (FS.scrape_round_trip_data_dynamic envDynC4).events ∧
    Event.recoveryReload 0
        ∉ (FS.scrape_round_trip_data_dynamic envDynC4).events ∧
    Event.periodicRefresh 1
        ∉ (FS.scrape_round_trip_data_dynamic envDynC4).events := by
  decide

/-- Claim C4 amended: in the dynamic engine the reset runs before the next
index on the successful-reveal path (the reload at lines 363-372) and on
the activation-failure path (the recovery reload at lines 381-384), but on
the reveal-timeout path the iteration ends with no reset at all: its delta
is exactly capture, click, timeout. -/
theorem claim_C4_amended (N i : Nat) (e : FS.DynIterEnv)
    (h1 : ¬ (0 < i ∧ i % 5 = 0 ∧ e.refreshFails = true))
    (h2 : i < e.outboundCount)
    (h3 : e.scrollFails = false) :
    (e.clickFails = false → e.revealTimesOut = false →
        e.resetFirstFails = false →
        Event.resetReload i ∈ (FS.dynIterDelta N i e).2.1) ∧
    (e.clickFails = true → e.recoveryFails = false →
        Event.recoveryReload i ∈ (FS.dynIterDelta N i e).2.1) ∧
    (e.clickFails = false → e.revealTimesOut = true →
        (FS.dynIterDelta N i e)
          = (none,
             (if 0 < i ∧ i % 5 = 0 then [Event.periodicRefresh i] else [])
               ++ [Event.capturedOutbound i, Event.clicked i,
                   Event.revealTimeout i],
             false)) := by
  have hle : ¬ e.outboundCount ≤ i := not_le.mpr h2
  refine ⟨?_, ?_, ?_⟩
  · intro hclick hreveal hreset
    by_cases hre : (FS.dynReturnInfos N e).isEmpty <;>
      simp [FS.dynIterDelta, FS.recoverDelta, h1, hle, h3, hclick, hreveal,
        hreset, hre]
  · intro hclick hrec
    simp [FS.dynIterDelta, FS.recoverDelta, h1, hle, h3, hclick, hrec]
  · intro hclick hreveal
    simp [FS.dynIterDelta, FS.recoverDelta, h1, hle, h3, hclick, hreveal]

/-- Evaluation of the C4 theorem on the concrete successful iteration. -/
theorem claim_C4_witness :
    (iterOk.clickFails = false → iterOk.revealTimesOut = false →
        iterOk.resetFirstFails = false →
        Event.resetReload 0 ∈ (FS.dynIterDelta 1 0 iterOk).2.1) ∧
    (iterOk.clickFails = true → iterOk.recoveryFails = false →
        Event.recoveryReload 0 ∈ (FS.dynIterDelta 1 0 iterOk).2.1) ∧
    (iterOk.clickFails = false → iterOk.revealTimesOut = true →
        (FS.dynIterDelta 1 0 iterOk)
          = (none,
             (if 0 < 0 ∧ 0 % 5 = 0 then [Event.periodicRefresh 0] else [])
               ++ [Event.capturedOutbound 0, Event.clicked 0,
                   Event.revealTimeout 0],
             false)) :=
  claim_C4_amended 1 0 iterOk (by decide) (by decide) rfl

/-! ### Claim C5 -/

/-- Claim C5: in both engines, an index whose reveal wait times out has
its failure recorded (the timeout event for that index), contributes
nothing to final_data, and leaves the run able to continue (not aborted,
no escaping error), with the already accumulated data untouched. -/
theorem claim_C5 :
    (∀ (env : FS.DynEnv) (N i : Nat) (st : FS.RunState),
      st.aborted = false →
      ¬ (0 < i ∧ i % 5 = 0 ∧ (env.iter i).refreshFails = true) →
      i < (env.iter i).outboundCount →
      (env.iter i).scrollFails = false →
      (env.iter i).clickFails = false →
      (env.iter i).revealTimesOut = true →
      (FS.dynStep env N i st).data = st.data ∧
      (FS.dynStep env N i st).aborted = false ∧
      Event.revealTimeout i ∈ (FS.dynStep env N i st).events) ∧
    (∀ (env : FSP.ProxyEnv) (i : Nat) (st : FSP.PRunState),
      st.error = none →
      i < (env.iter i).outboundCount →
      (env.iter i).clickFails = false →
      (env.iter i).revealTimesOut = true →
      (FSP.proxyStep env i st).data = st.data ∧
      (FSP.proxyStep env i st).error = none ∧
      Event.revealTimeout i ∈ (FSP.proxyStep env i st).events) := by
  constructor
  · intro env N i st hst h1 h2 h3 h4 h5
    have hle : ¬ (env.iter i).outboundCount ≤ i := not_le.mpr h2
    simp [FS.dynStep, FS.dynIterDelta, FS.recoverDelta, hst, h1, hle, h3,
      h4, h5]
  · intro env i st hst h2 h3 h4
    have hle : ¬ (env.iter i).outboundCount ≤ i := not_le.mpr h2
    simp only [FSP.proxyStep, FSP.proxyIterDelta, hst, hle]
    split_ifs <;> simp_all

/-- Evaluation of the C5 theorem on concrete timed-out iterations of both
engines. -/
theorem claim_C5_witness :
    ((FS.dynStep envDynC4 2 0 ⟨[], [], false⟩).data = [] ∧
     (FS.dynStep envDynC4 2 0 ⟨[], [], false⟩).aborted = false ∧
     Event.revealTimeout 0 ∈ (FS.dynStep envDynC4 2 0 ⟨[], [], false⟩).events) ∧
    ((FSP.proxyStep envProxTimeout 0 ⟨[], [], none⟩).data = [] ∧
     (FSP.proxyStep envProxTimeout 0 ⟨[], [], none⟩).error = none ∧
     Event.revealTimeout 0
       ∈ (FSP.proxyStep envProxTimeout 0 ⟨[], [], none⟩).events) :=
  ⟨claim_C5.1 envDynC4 2 0 ⟨[], [], false⟩ rfl (by decide) (by decide)
      rfl rfl rfl,
   claim_C5.2 envProxTimeout 0 ⟨[], [], none⟩ rfl (by decide) rfl rfl⟩

/-! ### Claims C6 and C7: the extraction layer -/

theorem FS.extract_sentinel_cases (flight : FlightElement) (sel : String)
    (lbl : Option String) :
    FS.extract_flight_element_text flight sel lbl = "N/A" ∨
    ∃ s, flight.querySelector s
        = some (FS.extract_flight_element_text flight sel lbl) := by
  unfold FS.extract_flight_element_text
  cases h : flight.querySelector (FS.composeSelector sel lbl) with
  | none => exact Or.inl rfl
  | some t => exact Or.inr ⟨_, h⟩

theorem FSP.extract_sentinel_cases_proxy (flight : FlightElement) (sel : String)
    (lbl : Option String) :
    FSP.extract_flight_element_text flight sel lbl = "N/A" ∨
    ∃ s, flight.querySelector s
        = some (FSP.extract_flight_element_text flight sel lbl) := by
  unfold FSP.extract_flight_element_text
  cases h : flight.querySelector (FSP.composeSelector sel lbl) with
  | none => exact Or.inl rfl
  | some t => exact Or.inr ⟨_, h⟩

/-- Claim C6: in both variants of scrape_flight_info the record built for
any element has exactly the eight fixed keys in order; it is the pointwise
image of the per-field extractor over the eight field specifications
(total, so no per-field failure aborts the record); every value is either
the sentinel or the text actually read from the element; and each field's
extraction depends only on that field's own sub-query, so one failing
field degrades to the sentinel leaving the other seven values unchanged. -/
theorem claim_C6 (flight : FlightElement) :
    ((FS.scrape_flight_info flight).map Prod.fst
      = ["Departure Time", "Arrival Time", "Airline Company",
         "Flight Duration", "Stops", "Price", "co2 emissions",
         "emissions variation"]) ∧
    (FS.scrape_flight_info flight
      = fieldSpecs.map (fun p =>
          (p.key,
            FS.extract_flight_element_text flight p.selector p.ariaLabel))) ∧
    (∀ kv ∈ FS.scrape_flight_info flight,
      kv.2 = "N/A" ∨ ∃ s, flight.querySelector s = some kv.2) ∧
    (∀ (g : FlightElement) (sel : String) (lbl : Option String),
      g.querySelector (FS.composeSelector sel lbl)
          = flight.querySelector (FS.composeSelector sel lbl) →
      FS.extract_flight_element_text g sel lbl
          = FS.extract_flight_element_text flight sel lbl) ∧
    ((FSP.scrape_flight_info flight).map Prod.fst
      = ["Departure Time", "Arrival Time", "Airline Company",
         "Flight Duration", "Stops", "Price", "co2 emissions",
         "emissions variation"]) ∧
    (FSP.scrape_flight_info flight
      = fieldSpecs.map (fun p =>
          (p.key,
            FSP.extract_flight_element_text flight p.selector p.ariaLabel))) ∧
    (∀ kv ∈ FSP.scrape_flight_info flight,
      kv.2 = "N/A" ∨ ∃ s, flight.querySelector s = some kv.2) ∧
    (∀ (g : FlightElement) (sel : String) (lbl : Option String),
      g.querySelector (FSP.composeSelector sel lbl)
          = flight.querySelector (FSP.composeSelector sel lbl) →
      FSP.extract_flight_element_text g sel lbl
          = FSP.extract_flight_element_text flight sel lbl) := by
  refine ⟨rfl, rfl, ?_, ?_, rfl, rfl, ?_, ?_⟩
  · intro kv hkv
    simp only [FS.scrape_flight_info, List.mem_cons, List.not_mem_nil,
      or_false] at hkv
    rcases hkv with rfl | rfl | rfl | rfl | rfl | rfl | rfl | rfl <;>
      exact FS.extract_sentinel_cases flight _ _
  · intro g sel lbl h
    unfold FS.extract_flight_element_text
    rw [h]
  · intro kv hkv
    simp only [FSP.scrape_flight_info, List.mem_cons, List.not_mem_nil,
      or_false] at hkv
    rcases hkv with rfl | rfl | rfl | rfl | rfl | rfl | rfl | rfl <;>
      exact FSP.extract_sentinel_cases_proxy flight _ _
  · intro g sel lbl h
    unfold FSP.extract_flight_element_text
    rw [h]

/-- Evaluation of the C6 theorem on the all-absent element: the sentinel
case of the value disjunction. -/
theorem claim_C6_witness :
    ("N/A" : String) = "N/A" ∨
    ∃ s, elemBlank.querySelector s = some "N/A" :=
  (claim_C6 elemBlank).2.2.1 ("Departure Time", "N/A") (by decide)

/-- Claim C7: in both variants, when no sub-structure matches the composed
selector (with its optional aria-label hint) the extractor returns the
sentinel "N/A" instead of raising, and the record builder still produces
all eight fields of the record. -/
theorem claim_C7 :
    (∀ (flight : FlightElement) (sel : String) (lbl : Option String),
      flight.querySelector (FS.composeSelector sel lbl) = none →
      FS.extract_flight_element_text flight sel lbl = "N/A") ∧
    (∀ flight : FlightElement, (FS.scrape_flight_info flight).length = 8) ∧
    (∀ (flight : FlightElement) (sel : String) (lbl : Option String),
      flight.querySelector (FSP.composeSelector sel lbl) = none →
      FSP.extract_flight_element_text flight sel lbl = "N/A") ∧
    (∀ flight : FlightElement, (FSP.scrape_flight_info flight).length = 8) := by
  refine ⟨?_, fun _ => rfl, ?_, fun _ => rfl⟩
  · intro flight sel lbl h
    unfold FS.extract_flight_element_text
    rw [h]
  · intro flight sel lbl h
    unfold FSP.extract_flight_element_text
    rw [h]

/-- Evaluation of the C7 theorem on the all-absent element. -/
theorem claim_C7_witness :
    FS.extract_flight_element_text elemBlank ".sSHqwe" none = "N/A" ∧
    (FS.scrape_flight_info elemBlank).length = 8 ∧
    FSP.extract_flight_element_text elemBlank ".sSHqwe" none = "N/A" ∧
    (FSP.scrape_flight_info elemBlank).length = 8 :=
  ⟨claim_C7.1 elemBlank ".sSHqwe" none rfl, claim_C7.2.1 elemBlank,
   claim_C7.2.2.1 elemBlank ".sSHqwe" none rfl, claim_C7.2.2.2 elemBlank⟩

/-! ### Claim C8 -/

/-- Claim C8, as stated over both engines, is false: the proxy engine
appends an entry for every index whose reveal succeeded, so index 0, whose
reveal yielded zero return candidates, still contributes an entry — the
result is not the restriction to indices with a non-empty returns
sequence (that restriction would contain only index 1's option). -/
theorem claim_C8_counterexample :
    FSP.scrape_round_trip_data envProxC8
      = Except.ok
          [⟨FSP.scrape_flight_info elemBlank, []⟩,
           ⟨FSP.scrape_flight_info elemBlank, [FSP.scrape_flight_info elemR]⟩] ∧
    (⟨FSP.scrape_flight_info elemBlank, []⟩ : RoundTripOption).ReturnFlights
      = [] := by
  exact ⟨rfl, rfl⟩

/-- Claim C8 amended: in the dynamic engine the final data is exactly the
in-order image of the per-index outcomes over the ascending index range
(cut at the abort point), and an index contributes an outcome only when
its returns sequence is non-empty — so the result order is ascending index
order restricted to non-empty-returns indices, with no placeholders. -/
theorem claim_C8_amended (env : FS.DynEnv)
    (h : env.initialWaitFails = false) :
    ((FS.scrape_round_trip_data_dynamic env).data
      = (FS.dynTakeUntil env (min env.initialOutboundCount 15)
          (List.range (min env.initialOutboundCount 15))).filterMap
          (fun i =>
            (FS.dynIterDelta (min env.initialOutboundCount 15) i
              (env.iter i)).1)) ∧
    (∀ i opt,
      (FS.dynIterDelta (min env.initialOutboundCount 15) i
          (env.iter i)).1 = some opt →
      opt.ReturnFlights ≠ []) := by
  constructor
  · unfold FS.scrape_round_trip_data_dynamic
    rw [if_neg (by simp [h])]
    simpa using FS.dynLoop_data_char env (min env.initialOutboundCount 15)
      (List.range (min env.initialOutboundCount 15))
      { data := [], events := [], aborted := false } rfl
  · intro i opt hd
    exact (FS.dynIterDelta_data_eq env _ i opt hd).2.2

/-- Evaluation of the C8 theorem on a concrete successful run. -/
theorem claim_C8_witness :
    (FS.scrape_round_trip_data_dynamic envDynOk).data
      = (FS.dynTakeUntil envDynOk (min envDynOk.initialOutboundCount 15)
          (List.range (min envDynOk.initialOutboundCount 15))).filterMap
          (fun i =>
            (FS.dynIterDelta (min envDynOk.initialOutboundCount 15) i
              (envDynOk.iter i)).1) :=
  (claim_C8_amended envDynOk rfl).1

/-! ### Claim C9 -/

/-- Claim C9, as stated over both engines, is false on the dynamic engine:
its per-index reset (flight_scraper.py lines 363-372) reloads the search
URL in both the try branch and the fallback branch and never queries or
activates an in-page dismiss control, so a full reload is the first-choice
reset on every successful iteration — the whole trace of a successful run
contains a reload reset and no dismiss. -/
theorem claim_C9_counterexample :
    (FS.scrape_round_trip_data_dynamic envDynOk).events
      = [Event.capturedOutbound 0, Event.clicked 0,
         Event.capturedReturns 0 1, Event.appended 0, Event.resetReload 0] ∧
    Event.resetDismiss 0 ∉ (FS.scrape_round_trip_data_dynamic envDynOk).events := by
  exact ⟨rfl, by decide⟩

/-- Claim C9 amended: the proxy engine (flight_scraper_proxy.py lines
267-280) does follow dismiss-first: when the Close control is present and
the dismiss succeeds, the reset is the dismiss and no reload happens for
that index; the reload runs only as fallback, when the dismiss fails or
the control is absent.  The dynamic engine instead always resets by full
reload and never attempts a dismiss. -/
theorem claim_C9_amended (i : Nat) (e : FSP.ProxyIterEnv)
    (h1 : i < e.outboundCount)
    (h2 : e.clickFails = false)
    (h3 : e.revealTimesOut = false) :
    (e.resetCloseVisible = true → e.resetCloseFails = false →
      Event.resetDismiss i ∈ (FSP.proxyIterDelta i e).2.1 ∧
      Event.resetReload i ∉ (FSP.proxyIterDelta i e).2.1) ∧
    (e.resetCloseVisible = true → e.resetCloseFails = true →
      e.resetExceptReloadFails = false →
      Event.resetReload i ∈ (FSP.proxyIterDelta i e).2.1) ∧
    (e.resetCloseVisible = false → e.resetElseReloadFails = false →
      Event.resetReload i ∈ (FSP.proxyIterDelta i e).2.1) := by
  have hle : ¬ e.outboundCount ≤ i := not_le.mpr h1
  refine ⟨?_, ?_, ?_⟩
  · intro ha hb
    simp [FSP.proxyIterDelta, hle, h2, h3, ha, hb]
  · intro ha hb hc
    simp [FSP.proxyIterDelta, hle, h2, h3, ha, hb, hc]
  · intro ha hb
    simp [FSP.proxyIterDelta, hle, h2, h3, ha, hb]

/-- Evaluation of the C9 theorem on the concrete successful proxy
iteration. -/
theorem claim_C9_witness :
    (proxIterOk.resetCloseVisible = true → proxIterOk.resetCloseFails = false →
      Event.resetDismiss 0 ∈ (FSP.proxyIterDelta 0 proxIterOk).2.1 ∧
      Event.resetReload 0 ∉ (FSP.proxyIterDelta 0 proxIterOk).2.1) ∧
    (proxIterOk.resetCloseVisible = true → proxIterOk.resetCloseFails = true →
      proxIterOk.resetExceptReloadFails = false →
      Event.resetReload 0 ∈ (FSP.proxyIterDelta 0 proxIterOk).2.1) ∧
    (proxIterOk.resetCloseVisible = false →
      proxIterOk.resetElseReloadFails = false →
      Event.resetReload 0 ∈ (FSP.proxyIterDelta 0 proxIterOk).2.1) :=
  claim_C9_amended 0 proxIterOk (by decide) rfl rfl

/-! ### Claim C10 -/

/-- Claim C10: the dynamic engine caps the processed range at the first 15
outbound candidates (min at flight_scraper.py line 286), so the final data
never holds more than 15 options and no index beyond 14 ever has its
outbound record captured. -/
theorem claim_C10 (env : FS.DynEnv) :
    (FS.scrape_round_trip_data_dynamic env).data.length ≤ 15 ∧
    ∀ j, Event.capturedOutbound j
        ∈ (FS.scrape_round_trip_data_dynamic env).events → j < 15 := by
  unfold FS.scrape_round_trip_data_dynamic
  split
  · constructor
    · simp
    · intro j hj
      simp at hj
  · constructor
    · have hlen := FS.dynLoop_data_length env (min env.initialOutboundCount 15)
        (List.range (min env.initialOutboundCount 15))
        { data := [], events := [], aborted := false }
      have h15 : min env.initialOutboundCount 15 ≤ 15 :=
        Nat.min_le_right _ _
      simp only [List.length_range, List.length_nil] at hlen
      exact le_trans (by simpa using hlen) h15
    · intro j hj
      rcases FS.dynLoop_capturedOutbound env (min env.initialOutboundCount 15)
          (List.range (min env.initialOutboundCount 15))
          { data := [], events := [], aborted := false } j hj with hmem | hmem
      · simp at hmem
      · have hj15 : j < min env.initialOutboundCount 15 :=
          List.mem_range.mp hmem
        exact lt_of_lt_of_le hj15 (Nat.min_le_right _ _)

/-- Evaluation of the C10 theorem on a concrete run. -/
theorem claim_C10_witness :
    (FS.scrape_round_trip_data_dynamic envDynOk).data.length ≤ 15 ∧
    (0 : Nat) < 15 :=
  ⟨(claim_C10 envDynOk).1, (claim_C10 envDynOk).2 0 (by decide)⟩

end TakeOffTracker
